import Mathlib

/-!
Verification of the CDR classification and multi-source aggregation engine of
the billing-reports repository (`billing_reports.py` and `call_ratio.py`).

Python strings are modelled as Lean `String` (operated on through their
character lists); Python floats are modelled as exact rationals `ℚ`; Python
dicts keyed by strings are modelled as total functions `String → Option _` or
`String → _` with a default value (a Python dict holds only touched keys, but
every claim checked here is about the value at a key, so the total-function
view is faithful).  `str.isdigit` is modelled by `Char.isDigit` (its ASCII
fragment).  Fallible Python code (`int(...)`, list indexing) is modelled with
`Option`/`Except`.
-/

namespace BillingReports

/-- `NPA_TO_STATE` from `billing_reports.py` (lines 48-137), transcribed in
source order.  The Python dict literal has no duplicate keys, so first-match
association-list lookup agrees with `dict.get`. -/
def NPA_TO_STATE : List (String × String) := [
("205", "AL"), ("251", "AL"), ("256", "AL"), ("334", "AL"), ("938", "AL"),
("907", "AK"), ("480", "AZ"), ("520", "AZ"), ("602", "AZ"), ("623", "AZ"),
("928", "AZ"), ("479", "AR"), ("501", "AR"), ("870", "AR"), ("209", "CA"),
("213", "CA"), ("310", "CA"), ("323", "CA"), ("341", "CA"), ("408", "CA"),
("415", "CA"), ("424", "CA"), ("442", "CA"), ("510", "CA"), ("530", "CA"),
("559", "CA"), ("562", "CA"), ("619", "CA"), ("626", "CA"), ("628", "CA"),
("650", "CA"), ("657", "CA"), ("661", "CA"), ("669", "CA"), ("707", "CA"),
("714", "CA"), ("747", "CA"), ("760", "CA"), ("805", "CA"), ("818", "CA"),
("820", "CA"), ("831", "CA"), ("840", "CA"), ("858", "CA"), ("909", "CA"),
("916", "CA"), ("925", "CA"), ("949", "CA"), ("951", "CA"), ("303", "CO"),
("719", "CO"), ("720", "CO"), ("970", "CO"), ("983", "CO"), ("203", "CT"),
("475", "CT"), ("860", "CT"), ("959", "CT"), ("302", "DE"), ("239", "FL"),
("305", "FL"), ("321", "FL"), ("352", "FL"), ("386", "FL"), ("407", "FL"),
("561", "FL"), ("727", "FL"), ("754", "FL"), ("772", "FL"), ("786", "FL"),
("813", "FL"), ("850", "FL"), ("863", "FL"), ("904", "FL"), ("941", "FL"),
("954", "FL"), ("229", "GA"), ("404", "GA"), ("470", "GA"), ("478", "GA"),
("678", "GA"), ("706", "GA"), ("762", "GA"), ("770", "GA"), ("912", "GA"),
("943", "GA"), ("808", "HI"), ("208", "ID"), ("986", "ID"), ("217", "IL"),
("224", "IL"), ("309", "IL"), ("312", "IL"), ("331", "IL"), ("618", "IL"),
("630", "IL"), ("708", "IL"), ("773", "IL"), ("779", "IL"), ("815", "IL"),
("847", "IL"), ("872", "IL"), ("219", "IN"), ("260", "IN"), ("317", "IN"),
("463", "IN"), ("574", "IN"), ("765", "IN"), ("812", "IN"), ("930", "IN"),
("319", "IA"), ("515", "IA"), ("563", "IA"), ("641", "IA"), ("712", "IA"),
("316", "KS"), ("620", "KS"), ("785", "KS"), ("913", "KS"), ("270", "KY"),
("364", "KY"), ("502", "KY"), ("606", "KY"), ("859", "KY"), ("225", "LA"),
("318", "LA"), ("337", "LA"), ("504", "LA"), ("985", "LA"), ("207", "ME"),
("240", "MD"), ("301", "MD"), ("410", "MD"), ("443", "MD"), ("667", "MD"),
("339", "MA"), ("351", "MA"), ("413", "MA"), ("508", "MA"), ("617", "MA"),
("774", "MA"), ("781", "MA"), ("857", "MA"), ("978", "MA"), ("231", "MI"),
("248", "MI"), ("269", "MI"), ("313", "MI"), ("517", "MI"), ("586", "MI"),
("616", "MI"), ("734", "MI"), ("810", "MI"), ("906", "MI"), ("947", "MI"),
("989", "MI"), ("218", "MN"), ("320", "MN"), ("507", "MN"), ("612", "MN"),
("651", "MN"), ("763", "MN"), ("952", "MN"), ("228", "MS"), ("601", "MS"),
("662", "MS"), ("769", "MS"), ("314", "MO"), ("417", "MO"), ("573", "MO"),
("636", "MO"), ("660", "MO"), ("816", "MO"), ("975", "MO"), ("406", "MT"),
("308", "NE"), ("402", "NE"), ("531", "NE"), ("702", "NV"), ("725", "NV"),
("775", "NV"), ("603", "NH"), ("201", "NJ"), ("551", "NJ"), ("609", "NJ"),
("640", "NJ"), ("732", "NJ"), ("848", "NJ"), ("856", "NJ"), ("862", "NJ"),
("908", "NJ"), ("973", "NJ"), ("505", "NM"), ("575", "NM"), ("212", "NY"),
("315", "NY"), ("332", "NY"), ("347", "NY"), ("516", "NY"), ("518", "NY"),
("585", "NY"), ("607", "NY"), ("631", "NY"), ("646", "NY"), ("680", "NY"),
("716", "NY"), ("718", "NY"), ("838", "NY"), ("845", "NY"), ("914", "NY"),
("917", "NY"), ("929", "NY"), ("934", "NY"), ("252", "NC"), ("336", "NC"),
("704", "NC"), ("743", "NC"), ("828", "NC"), ("910", "NC"), ("919", "NC"),
("980", "NC"), ("984", "NC"), ("701", "ND"), ("216", "OH"), ("220", "OH"),
("234", "OH"), ("283", "OH"), ("330", "OH"), ("380", "OH"), ("419", "OH"),
("440", "OH"), ("513", "OH"), ("567", "OH"), ("614", "OH"), ("740", "OH"),
("937", "OH"), ("405", "OK"), ("539", "OK"), ("580", "OK"), ("918", "OK"),
("458", "OR"), ("503", "OR"), ("541", "OR"), ("971", "OR"), ("215", "PA"),
("223", "PA"), ("267", "PA"), ("272", "PA"), ("412", "PA"), ("445", "PA"),
("484", "PA"), ("570", "PA"), ("582", "PA"), ("610", "PA"), ("717", "PA"),
("724", "PA"), ("814", "PA"), ("835", "PA"), ("878", "PA"), ("401", "RI"),
("803", "SC"), ("839", "SC"), ("843", "SC"), ("854", "SC"), ("864", "SC"),
("605", "SD"), ("423", "TN"), ("615", "TN"), ("629", "TN"), ("731", "TN"),
("865", "TN"), ("901", "TN"), ("931", "TN"), ("210", "TX"), ("214", "TX"),
("254", "TX"), ("281", "TX"), ("325", "TX"), ("346", "TX"), ("361", "TX"),
("409", "TX"), ("430", "TX"), ("432", "TX"), ("469", "TX"), ("512", "TX"),
("682", "TX"), ("713", "TX"), ("726", "TX"), ("737", "TX"), ("806", "TX"),
("817", "TX"), ("830", "TX"), ("832", "TX"), ("903", "TX"), ("915", "TX"),
("936", "TX"), ("940", "TX"), ("956", "TX"), ("972", "TX"), ("979", "TX"),
("385", "UT"), ("435", "UT"), ("801", "UT"), ("802", "VT"), ("276", "VA"),
("434", "VA"), ("540", "VA"), ("571", "VA"), ("703", "VA"), ("757", "VA"),
("804", "VA"), ("826", "VA"), ("948", "VA"), ("206", "WA"), ("253", "WA"),
("360", "WA"), ("425", "WA"), ("509", "WA"), ("564", "WA"), ("202", "DC"),
("304", "WV"), ("681", "WV"), ("262", "WI"), ("274", "WI"), ("414", "WI"),
("534", "WI"), ("608", "WI"), ("715", "WI"), ("920", "WI"), ("307", "WY"),
("340", "VI"), ("671", "GU"), ("684", "AS"), ("787", "PR"), ("939", "PR"),
("670", "MP")]

/-- `TOLL_FREE` from `billing_reports.py` (line 139). -/
def TOLL_FREE : List String := ["800", "833", "844", "855", "866", "877", "888"]

/-- Core of `normalize_phone` (`billing_reports.py` lines 142-147) on the
character list of the input string: keep the digit characters; an 11-digit
string starting with `1` loses that `1`; otherwise at least 10 digits are
truncated to the first 10 and fewer are kept as they are. -/
def normalizePhoneL (l : List Char) : List Char :=
  let digits := l.filter Char.isDigit
  if digits.length = 11 ∧ digits.head? = some '1' then digits.drop 1
  else if 10 ≤ digits.length then digits.take 10
  else digits

/-- `normalize_phone` from `billing_reports.py` (lines 142-147). -/
def normalize_phone (phone : String) : String :=
  (normalizePhoneL phone.data).asString

/-- Core of `get_area_code` (`billing_reports.py` lines 150-153): the first 3
characters of the normalized number, or nothing if fewer than 3 remain. -/
def areaCodeL (l : List Char) : List Char :=
  let normalized := normalizePhoneL l
  if 3 ≤ normalized.length then normalized.take 3 else []

/-- `get_area_code` from `billing_reports.py` (lines 150-153). -/
def get_area_code (phone : String) : String :=
  (areaCodeL phone.data).asString

/-- `get_state` from `billing_reports.py` (lines 156-158):
`NPA_TO_STATE.get(get_area_code(phone), "")`. -/
def get_state (phone : String) : String :=
  (NPA_TO_STATE.lookup (get_area_code phone)).getD ""

/-- `is_toll_free` from `billing_reports.py` (lines 161-163). -/
def is_toll_free (phone : String) : Bool :=
  TOLL_FREE.contains (get_area_code phone)

/-- `classify_call` from `billing_reports.py` (lines 166-174). -/
def classify_call (source dest : String) : String :=
  if is_toll_free source || is_toll_free dest then "toll_free"
  else
    let src_state := get_state source
    let dst_state := get_state dest
    if src_state = "" ∨ dst_state = "" then "unknown"
    else if src_state = dst_state then "intrastate" else "interstate"

/-- `get_customer_name` from `billing_reports.py` (lines 177-183).  A Python
`str.split` result is never empty, so `parts[0] if parts else domain` always
takes the first dot-delimited segment, which is the longest prefix of the
domain containing no dot. -/
def get_customer_name (domain : String) : String :=
  if domain = "" then "Unknown"
  else (domain.data.takeWhile (fun c => c != '.')).asString

/-- A phone-number-to-customer mapping (Python dict `str -> str`), modelled as
a total function into `Option String`. -/
def PhoneMap : Type := String → Option String

/-- `load_phone_mapping` from `billing_reports.py` (lines 189-199), over the
(`Phone Number`, `Domain`) field pairs of the inventory rows.  Later rows
overwrite earlier ones, as in a Python dict. -/
def load_phone_mapping (rows : List (String × String)) : PhoneMap :=
  rows.foldl
    (fun m row =>
      let phone := normalize_phone row.1
      let domain := row.2
      if phone ≠ "" ∧ domain ≠ "" then
        fun k => if k = phone then some (get_customer_name domain) else m k
      else m)
    (fun _ => none)

/-- Python string-or: `a or b` where `a` is `dict.get(...)` (an optional
string, falsy when missing or empty) and `b` is the fallback. -/
def pyOrStr (a : Option String) (b : String) : String :=
  match a with
  | none => b
  | some s => if s = "" then b else s

/-- The customer-resolution expression
`phone_mapping.get(src_normalized) or phone_mapping.get(dst_normalized) or "Unassigned"`
(`billing_reports.py` line 275, repeated at lines 650 and 688). -/
def resolveCustomer (pm : PhoneMap) (source dest : String) : String :=
  pyOrStr (pm (normalize_phone source))
    (pyOrStr (pm (normalize_phone dest)) "Unassigned")

end BillingReports

namespace CallRatio

/-- `NPA_TO_STATE` from `call_ratio.py` (lines 21-162), transcribed in source
order (textually identical to the table in `billing_reports.py`). -/
def NPA_TO_STATE : List (String × String) := [
("205", "AL"), ("251", "AL"), ("256", "AL"), ("334", "AL"), ("938", "AL"),
("907", "AK"), ("480", "AZ"), ("520", "AZ"), ("602", "AZ"), ("623", "AZ"),
("928", "AZ"), ("479", "AR"), ("501", "AR"), ("870", "AR"), ("209", "CA"),
("213", "CA"), ("310", "CA"), ("323", "CA"), ("341", "CA"), ("408", "CA"),
("415", "CA"), ("424", "CA"), ("442", "CA"), ("510", "CA"), ("530", "CA"),
("559", "CA"), ("562", "CA"), ("619", "CA"), ("626", "CA"), ("628", "CA"),
("650", "CA"), ("657", "CA"), ("661", "CA"), ("669", "CA"), ("707", "CA"),
("714", "CA"), ("747", "CA"), ("760", "CA"), ("805", "CA"), ("818", "CA"),
("820", "CA"), ("831", "CA"), ("840", "CA"), ("858", "CA"), ("909", "CA"),
("916", "CA"), ("925", "CA"), ("949", "CA"), ("951", "CA"), ("303", "CO"),
("719", "CO"), ("720", "CO"), ("970", "CO"), ("983", "CO"), ("203", "CT"),
("475", "CT"), ("860", "CT"), ("959", "CT"), ("302", "DE"), ("239", "FL"),
("305", "FL"), ("321", "FL"), ("352", "FL"), ("386", "FL"), ("407", "FL"),
("561", "FL"), ("727", "FL"), ("754", "FL"), ("772", "FL"), ("786", "FL"),
("813", "FL"), ("850", "FL"), ("863", "FL"), ("904", "FL"), ("941", "FL"),
("954", "FL"), ("229", "GA"), ("404", "GA"), ("470", "GA"), ("478", "GA"),
("678", "GA"), ("706", "GA"), ("762", "GA"), ("770", "GA"), ("912", "GA"),
("943", "GA"), ("808", "HI"), ("208", "ID"), ("986", "ID"), ("217", "IL"),
("224", "IL"), ("309", "IL"), ("312", "IL"), ("331", "IL"), ("618", "IL"),
("630", "IL"), ("708", "IL"), ("773", "IL"), ("779", "IL"), ("815", "IL"),
("847", "IL"), ("872", "IL"), ("219", "IN"), ("260", "IN"), ("317", "IN"),
("463", "IN"), ("574", "IN"), ("765", "IN"), ("812", "IN"), ("930", "IN"),
("319", "IA"), ("515", "IA"), ("563", "IA"), ("641", "IA"), ("712", "IA"),
("316", "KS"), ("620", "KS"), ("785", "KS"), ("913", "KS"), ("270", "KY"),
("364", "KY"), ("502", "KY"), ("606", "KY"), ("859", "KY"), ("225", "LA"),
("318", "LA"), ("337", "LA"), ("504", "LA"), ("985", "LA"), ("207", "ME"),
("240", "MD"), ("301", "MD"), ("410", "MD"), ("443", "MD"), ("667", "MD"),
("339", "MA"), ("351", "MA"), ("413", "MA"), ("508", "MA"), ("617", "MA"),
("774", "MA"), ("781", "MA"), ("857", "MA"), ("978", "MA"), ("231", "MI"),
("248", "MI"), ("269", "MI"), ("313", "MI"), ("517", "MI"), ("586", "MI"),
("616", "MI"), ("734", "MI"), ("810", "MI"), ("906", "MI"), ("947", "MI"),
("989", "MI"), ("218", "MN"), ("320", "MN"), ("507", "MN"), ("612", "MN"),
("651", "MN"), ("763", "MN"), ("952", "MN"), ("228", "MS"), ("601", "MS"),
("662", "MS"), ("769", "MS"), ("314", "MO"), ("417", "MO"), ("573", "MO"),
("636", "MO"), ("660", "MO"), ("816", "MO"), ("975", "MO"), ("406", "MT"),
("308", "NE"), ("402", "NE"), ("531", "NE"), ("702", "NV"), ("725", "NV"),
("775", "NV"), ("603", "NH"), ("201", "NJ"), ("551", "NJ"), ("609", "NJ"),
("640", "NJ"), ("732", "NJ"), ("848", "NJ"), ("856", "NJ"), ("862", "NJ"),
("908", "NJ"), ("973", "NJ"), ("505", "NM"), ("575", "NM"), ("212", "NY"),
("315", "NY"), ("332", "NY"), ("347", "NY"), ("516", "NY"), ("518", "NY"),
("585", "NY"), ("607", "NY"), ("631", "NY"), ("646", "NY"), ("680", "NY"),
("716", "NY"), ("718", "NY"), ("838", "NY"), ("845", "NY"), ("914", "NY"),
("917", "NY"), ("929", "NY"), ("934", "NY"), ("252", "NC"), ("336", "NC"),
("704", "NC"), ("743", "NC"), ("828", "NC"), ("910", "NC"), ("919", "NC"),
("980", "NC"), ("984", "NC"), ("701", "ND"), ("216", "OH"), ("220", "OH"),
("234", "OH"), ("283", "OH"), ("330", "OH"), ("380", "OH"), ("419", "OH"),
("440", "OH"), ("513", "OH"), ("567", "OH"), ("614", "OH"), ("740", "OH"),
("937", "OH"), ("405", "OK"), ("539", "OK"), ("580", "OK"), ("918", "OK"),
("458", "OR"), ("503", "OR"), ("541", "OR"), ("971", "OR"), ("215", "PA"),
("223", "PA"), ("267", "PA"), ("272", "PA"), ("412", "PA"), ("445", "PA"),
("484", "PA"), ("570", "PA"), ("582", "PA"), ("610", "PA"), ("717", "PA"),
("724", "PA"), ("814", "PA"), ("835", "PA"), ("878", "PA"), ("401", "RI"),
("803", "SC"), ("839", "SC"), ("843", "SC"), ("854", "SC"), ("864", "SC"),
("605", "SD"), ("423", "TN"), ("615", "TN"), ("629", "TN"), ("731", "TN"),
("865", "TN"), ("901", "TN"), ("931", "TN"), ("210", "TX"), ("214", "TX"),
("254", "TX"), ("281", "TX"), ("325", "TX"), ("346", "TX"), ("361", "TX"),
("409", "TX"), ("430", "TX"), ("432", "TX"), ("469", "TX"), ("512", "TX"),
("682", "TX"), ("713", "TX"), ("726", "TX"), ("737", "TX"), ("806", "TX"),
("817", "TX"), ("830", "TX"), ("832", "TX"), ("903", "TX"), ("915", "TX"),
("936", "TX"), ("940", "TX"), ("956", "TX"), ("972", "TX"), ("979", "TX"),
("385", "UT"), ("435", "UT"), ("801", "UT"), ("802", "VT"), ("276", "VA"),
("434", "VA"), ("540", "VA"), ("571", "VA"), ("703", "VA"), ("757", "VA"),
("804", "VA"), ("826", "VA"), ("948", "VA"), ("206", "WA"), ("253", "WA"),
("360", "WA"), ("425", "WA"), ("509", "WA"), ("564", "WA"), ("202", "DC"),
("304", "WV"), ("681", "WV"), ("262", "WI"), ("274", "WI"), ("414", "WI"),
("534", "WI"), ("608", "WI"), ("715", "WI"), ("920", "WI"), ("307", "WY"),
("340", "VI"), ("671", "GU"), ("684", "AS"), ("787", "PR"), ("939", "PR"),
("670", "MP")]

/-- `TOLL_FREE` from `call_ratio.py` (line 165). -/
def TOLL_FREE : List String := ["800", "833", "844", "855", "866", "877", "888"]

/-- Core of `get_area_code` (`call_ratio.py` lines 194-206) on the character
list: `digits[1:4]` for an 11-digit string starting with `1`, else the first 3
digits when at least 3 are present. -/
def areaCodeL (l : List Char) : List Char :=
  let digits := l.filter Char.isDigit
  if digits.length = 11 ∧ digits.head? = some '1' then (digits.drop 1).take 3
  else if digits.length = 10 then digits.take 3
  else if 3 ≤ digits.length then digits.take 3
  else []

/-- `get_area_code` from `call_ratio.py` (lines 194-206). -/
def get_area_code (phone_number : String) : String :=
  (areaCodeL phone_number.data).asString

/-- `get_state` from `call_ratio.py` (lines 209-212). -/
def get_state (phone_number : String) : String :=
  (NPA_TO_STATE.lookup (get_area_code phone_number)).getD ""

/-- `is_toll_free` from `call_ratio.py` (lines 215-218). -/
def is_toll_free (phone_number : String) : Bool :=
  TOLL_FREE.contains (get_area_code phone_number)

/-- `classify_call` from `call_ratio.py` (lines 221-243). -/
def classify_call (source destination : String) : String :=
  if is_toll_free source || is_toll_free destination then "toll_free"
  else
    let source_state := get_state source
    let dest_state := get_state destination
    if source_state = "" ∨ dest_state = "" then "unknown"
    else if source_state = dest_state then "intrastate" else "interstate"

end CallRatio

/-- One CDR CSV row after field extraction: the stripped `Source` and
`Destination` strings and the parsed `Seconds` and `Cost` numeric fields
(`billing_reports.py` lines 263-266; `call_ratio.py` lines 266-273).  The
CSV/float parsing layer upstream of these fields is not modelled; Python
floats are modelled as exact rationals. -/
structure CdrRow where
  source : String
  dest : String
  seconds : ℚ
  cost : ℚ

namespace BillingReports

/-- `VOICE_RATE_PER_MINUTE` from `billing_reports.py` (line 28): the Python
float `0.005`, modelled as the exact rational it denotes. -/
def VOICE_RATE_PER_MINUTE : ℚ := 5 / 1000

/-- The numeric accumulator fields of the `CustomerStats` dataclass
(`billing_reports.py` lines 205-220).  The `name` field is omitted: the code
only ever sets it to the dict key under which the stats are stored.  The
`phone_numbers` set is modelled as a `Finset`. -/
structure CustomerStats where
  total_calls : Nat
  total_seconds : ℚ
  total_cost : ℚ
  interstate_calls : Nat
  interstate_seconds : ℚ
  intrastate_calls : Nat
  intrastate_seconds : ℚ
  toll_free_calls : Nat
  toll_free_seconds : ℚ
  unknown_calls : Nat
  unknown_seconds : ℚ
  phone_numbers : Finset String

/-- The default-constructed `CustomerStats` (all dataclass defaults). -/
def emptyStats : CustomerStats :=
  ⟨0, 0, 0, 0, 0, 0, 0, 0, 0, 0, 0, ∅⟩

/-- Field-wise sum of two accumulators (counts and seconds added, phone sets
united); the merge operation of the combined-aggregation claim. -/
def addStats (a b : CustomerStats) : CustomerStats :=
  ⟨a.total_calls + b.total_calls,
   a.total_seconds + b.total_seconds,
   a.total_cost + b.total_cost,
   a.interstate_calls + b.interstate_calls,
   a.interstate_seconds + b.interstate_seconds,
   a.intrastate_calls + b.intrastate_calls,
   a.intrastate_seconds + b.intrastate_seconds,
   a.toll_free_calls + b.toll_free_calls,
   a.toll_free_seconds + b.toll_free_seconds,
   a.unknown_calls + b.unknown_calls,
   a.unknown_seconds + b.unknown_seconds,
   a.phone_numbers ∪ b.phone_numbers⟩

/-- The `stats.total_calls += 1; stats.total_seconds += seconds;
stats.total_cost += cost` block (`billing_reports.py` lines 283-285, 656-658,
694-697). -/
def addBase (s : CustomerStats) (seconds cost : ℚ) : CustomerStats :=
  { s with
    total_calls := s.total_calls + 1
    total_seconds := s.total_seconds + seconds
    total_cost := s.total_cost + cost }

/-- The jurisdiction-bucket `if/elif/else` chain on the result of
`classify_call` (`billing_reports.py` lines 294-306, 660-672, 699-711). -/
def addJurisdiction (s : CustomerStats) (call_type : String) (seconds : ℚ) :
    CustomerStats :=
  if call_type = "interstate" then
    { s with
      interstate_calls := s.interstate_calls + 1
      interstate_seconds := s.interstate_seconds + seconds }
  else if call_type = "intrastate" then
    { s with
      intrastate_calls := s.intrastate_calls + 1
      intrastate_seconds := s.intrastate_seconds + seconds }
  else if call_type = "toll_free" then
    { s with
      toll_free_calls := s.toll_free_calls + 1
      toll_free_seconds := s.toll_free_seconds + seconds }
  else
    { s with
      unknown_calls := s.unknown_calls + 1
      unknown_seconds := s.unknown_seconds + seconds }

/-- The phone-number tracking block (`billing_reports.py` lines 287-291):
each normalized endpoint present in the mapping is added to the customer's
distinct-phone set. -/
def trackPhones (pm : PhoneMap) (s : CustomerStats) (srcN dstN : String) :
    CustomerStats :=
  let s1 :=
    if (pm srcN).isSome then
      { s with phone_numbers := insert srcN s.phone_numbers }
    else s
  if (pm dstN).isSome then
    { s1 with phone_numbers := insert dstN s1.phone_numbers }
  else s1

/-- Point update of a customer-keyed accumulator map (the effect of mutating
`customers[customer]` in place). -/
def updateAt (m : String → CustomerStats) (k : String)
    (f : CustomerStats → CustomerStats) : String → CustomerStats :=
  fun k2 => if k2 = k then f (m k2) else m k2

/-- The per-row body of `generate_cdr_report` (`billing_reports.py` lines
262-306): drop the row when `seconds <= 0`, else resolve the customer, add
base totals, track mapped phone numbers, and bucket by `classify_call`. -/
def stepCdr (pm : PhoneMap) (m : String → CustomerStats) (row : CdrRow) :
    String → CustomerStats :=
  if row.seconds ≤ 0 then m
  else
    let srcN := normalize_phone row.source
    let dstN := normalize_phone row.dest
    let customer := pyOrStr (pm srcN) (pyOrStr (pm dstN) "Unassigned")
    updateAt m customer (fun s =>
      addJurisdiction (trackPhones pm (addBase s row.seconds row.cost) srcN dstN)
        (classify_call row.source row.dest) row.seconds)

/-- `generate_cdr_report` (`billing_reports.py` lines 241-338) restricted to
its accumulation effect: the customer-keyed stats after processing all rows
(CSV output formatting is not modelled). -/
def generate_cdr_report (pm : PhoneMap) (rows : List CdrRow) :
    String → CustomerStats :=
  rows.foldl (stepCdr pm) (fun _ => emptyStats)

/-- `generate_callerid_report` (`billing_reports.py` lines 405-423) restricted
to its counting effect: calls per non-empty normalized destination.  Note the
source has no duration check in this loop. -/
def generate_callerid_report (rows : List CdrRow) : String → Nat :=
  rows.foldl
    (fun m row =>
      let dest := normalize_phone row.dest
      if dest ≠ "" then (fun k => if k = dest then m k + 1 else m k) else m)
    (fun _ => 0)

end BillingReports

namespace BillingReports

/-- One record produced by `extract_skyswitch_cdr` (`billing_reports.py`
lines 598-604): source, destination, duration in seconds, and the customer
name derived from the row's `Domain` column.  The record deliberately carries
no cost field — the extractor emits none. -/
structure SkyRecord where
  source : String
  dest : String
  seconds : ℚ
  customer : String

/-- The record-emission step of `extract_skyswitch_cdr` (`billing_reports.py`
lines 585-604) for one data row, given the already-decoded relevant cells:
`From` (column D), `To`-or-`Dialed` (columns F/E, already coalesced), the
parsed duration (an unparseable duration string became `0` upstream), and the
`Domain` column J.  A record is emitted only when the duration is positive. -/
def processSkyRow (source dest : String) (duration : ℚ) (domain : String) :
    Option SkyRecord :=
  if 0 < duration then some ⟨source, dest, duration, get_customer_name domain⟩
  else none

/-- The customer-attribution step for a SkySwitch record inside
`generate_combined_cdr_report` (`billing_reports.py` lines 683-688): the
extracted customer name is kept unless it is empty or `"Unknown"`, in which
case phone-based resolution is used. -/
def skyCustomer (pm : PhoneMap) (rec : SkyRecord) : String :=
  if rec.customer = "" ∨ rec.customer = "Unknown" then
    resolveCustomer pm rec.source rec.dest
  else rec.customer

/-- The per-row body of the Vitelity loop of `generate_combined_cdr_report`
(`billing_reports.py` lines 639-672): like `stepCdr` but without the
phone-number tracking block (the combined report does not track phones). -/
def stepCombinedVit (pm : PhoneMap) (m : String → CustomerStats)
    (row : CdrRow) : String → CustomerStats :=
  if row.seconds ≤ 0 then m
  else
    updateAt m (resolveCustomer pm row.source row.dest) (fun s =>
      addJurisdiction (addBase s row.seconds row.cost)
        (classify_call row.source row.dest) row.seconds)

/-- The per-record body of the SkySwitch loop of
`generate_combined_cdr_report` (`billing_reports.py` lines 679-711): the cost
added is recomputed as `(seconds / 60) * VOICE_RATE_PER_MINUTE`; no duration
check appears here because extraction only emits records with positive
duration. -/
def stepCombinedSky (pm : PhoneMap) (m : String → CustomerStats)
    (rec : SkyRecord) : String → CustomerStats :=
  updateAt m (skyCustomer pm rec) (fun s =>
    addJurisdiction
      (addBase s rec.seconds (rec.seconds / 60 * VOICE_RATE_PER_MINUTE))
      (classify_call rec.source rec.dest) rec.seconds)

/-- `generate_combined_cdr_report` (`billing_reports.py` lines 616-741)
restricted to its accumulation effect: the Vitelity rows are consumed first,
then the extracted SkySwitch records, into one customer-keyed map. -/
def generate_combined_cdr_report (pm : PhoneMap) (vitelity : List CdrRow)
    (skyswitch : List SkyRecord) : String → CustomerStats :=
  skyswitch.foldl (stepCombinedSky pm)
    (vitelity.foldl (stepCombinedVit pm) (fun _ => emptyStats))

/-- The Vitelity stream aggregated on its own (for comparison with the
combined pass). -/
def aggVitelityAlone (pm : PhoneMap) (vitelity : List CdrRow) :
    String → CustomerStats :=
  vitelity.foldl (stepCombinedVit pm) (fun _ => emptyStats)

/-- The SkySwitch stream aggregated on its own (for comparison with the
combined pass). -/
def aggSkyAlone (pm : PhoneMap) (skyswitch : List SkyRecord) :
    String → CustomerStats :=
  skyswitch.foldl (stepCombinedSky pm) (fun _ => emptyStats)

/-- Merge of two customer-keyed accumulator maps by summing matching keys. -/
def mergeMaps (a b : String → CustomerStats) : String → CustomerStats :=
  fun k => addStats (a k) (b k)

end BillingReports

namespace BillingReports

/-- Model of Python `int(str)`: optional surrounding whitespace, an optional
sign, then at least one decimal digit; anything else raises `ValueError`
(modelled as `none`).  Digit-grouping underscores are not modelled. -/
def pythonInt (s : String) : Option Int :=
  let t := s.data.dropWhile Char.isWhitespace
  let t := (t.reverse.dropWhile Char.isWhitespace).reverse
  let digitsToNat : List Char → Option Nat := fun cs =>
    if cs ≠ [] ∧ cs.all Char.isDigit then
      some (cs.foldl (fun n c => n * 10 + (c.toNat - '0'.toNat)) 0)
    else none
  match t with
  | '-' :: rest => (digitsToNat rest).map (fun n => -(n : Int))
  | '+' :: rest => (digitsToNat rest).map (fun n => (n : Int))
  | _ => (digitsToNat t).map (fun n => (n : Int))

/-- Model of Python list indexing `l[i]`: a nonnegative index reads from the
front, a negative index at least `-len(l)` reads from the end, anything else
raises `IndexError` (modelled as `none`). -/
def pyIndex (l : List String) (i : Int) : Option String :=
  if 0 ≤ i then l.get? i.toNat
  else if 0 ≤ i + l.length then l.get? (i + l.length).toNat
  else none

/-- The shared-string decoding step of `extract_skyswitch_cdr`
(`billing_reports.py` lines 571-576) for one cell: when the declared cell
type is `s`, the raw value is non-empty and the shared-string list is
non-empty, the raw value is parsed as an integer index (`int(val)`, which can
raise `ValueError`) and, when that index is below the list length, the cell is
resolved by Python list indexing (which can raise `IndexError` for an index
below `-len`); otherwise the raw value is kept.  `cellType` is the optional
`t` attribute; a missing `v` element became `val = ""` upstream.  Exceptions
escape the extractor: nothing in the source catches them here. -/
def decodeCellValue (cellType : Option String) (val : String)
    (strings : List String) : Except String String :=
  if cellType = some "s" ∧ val ≠ "" ∧ strings ≠ [] then
    match pythonInt val with
    | none => .error "ValueError"
    | some idx =>
      if idx < (strings.length : Int) then
        match pyIndex strings idx with
        | some s => .ok s
        | none => .error "IndexError"
      else .ok val
  else .ok val

end BillingReports

namespace CallRatio

/-- The four-bucket `totals` dict of `calculate_call_ratio`
(`call_ratio.py` lines 253-258), with calls and seconds per jurisdiction. -/
structure RatioBuckets where
  interstate_calls : Nat
  interstate_seconds : ℚ
  intrastate_calls : Nat
  intrastate_seconds : ℚ
  toll_free_calls : Nat
  toll_free_seconds : ℚ
  unknown_calls : Nat
  unknown_seconds : ℚ

/-- The `CallRatioResult` dataclass (`call_ratio.py` lines 168-191). -/
structure CallRatioResult where
  total_calls : Nat
  total_seconds : ℚ
  total_minutes : ℚ
  interstate_calls : Nat
  interstate_seconds : ℚ
  interstate_minutes : ℚ
  intrastate_calls : Nat
  intrastate_seconds : ℚ
  intrastate_minutes : ℚ
  toll_free_calls : Nat
  toll_free_seconds : ℚ
  unknown_calls : Nat
  unknown_seconds : ℚ
  interstate_ratio : ℚ
  intrastate_ratio : ℚ

/-- The per-row body of `calculate_call_ratio` (`call_ratio.py` lines
263-283): skip rows with `seconds <= 0`, else bump the bucket named by
`classify_call` (which only ever returns the four bucket names, so the final
branch is the `"unknown"` bucket). -/
def stepRatio (t : RatioBuckets) (row : CdrRow) : RatioBuckets :=
  if row.seconds ≤ 0 then t
  else
    let call_type := classify_call row.source row.dest
    if call_type = "interstate" then
      { t with
        interstate_calls := t.interstate_calls + 1
        interstate_seconds := t.interstate_seconds + row.seconds }
    else if call_type = "intrastate" then
      { t with
        intrastate_calls := t.intrastate_calls + 1
        intrastate_seconds := t.intrastate_seconds + row.seconds }
    else if call_type = "toll_free" then
      { t with
        toll_free_calls := t.toll_free_calls + 1
        toll_free_seconds := t.toll_free_seconds + row.seconds }
    else
      { t with
        unknown_calls := t.unknown_calls + 1
        unknown_seconds := t.unknown_seconds + row.seconds }

/-- `calculate_call_ratio` (`call_ratio.py` lines 246-320) over the parsed
rows: fold the rows into the four buckets, then assemble the result record
with totals, minutes and the jurisdictional ratios (ratios are `0` when there
are no interstate or intrastate seconds). -/
def calculate_call_ratio (rows : List CdrRow) : CallRatioResult :=
  let totals := rows.foldl stepRatio ⟨0, 0, 0, 0, 0, 0, 0, 0⟩
  let total_calls := totals.interstate_calls + totals.intrastate_calls +
    totals.toll_free_calls + totals.unknown_calls
  let total_seconds := totals.interstate_seconds + totals.intrastate_seconds +
    totals.toll_free_seconds + totals.unknown_seconds
  let jurisdictional_seconds :=
    totals.interstate_seconds + totals.intrastate_seconds
  let interstate_ratio :=
    if 0 < jurisdictional_seconds then
      totals.interstate_seconds / jurisdictional_seconds
    else 0
  let intrastate_ratio :=
    if 0 < jurisdictional_seconds then
      totals.intrastate_seconds / jurisdictional_seconds
    else 0
  ⟨total_calls, total_seconds, total_seconds / 60,
   totals.interstate_calls, totals.interstate_seconds,
   totals.interstate_seconds / 60,
   totals.intrastate_calls, totals.intrastate_seconds,
   totals.intrastate_seconds / 60,
   totals.toll_free_calls, totals.toll_free_seconds,
   totals.unknown_calls, totals.unknown_seconds,
   interstate_ratio, intrastate_ratio⟩

end CallRatio

namespace BillingReports

/-- Sum of the four per-jurisdiction call counts of a `CustomerStats`. -/
def sumBucketCalls (s : CustomerStats) : Nat :=
  s.interstate_calls + s.intrastate_calls + s.toll_free_calls + s.unknown_calls

/-- Sum of the four per-jurisdiction seconds of a `CustomerStats`. -/
def sumBucketSeconds (s : CustomerStats) : ℚ :=
  s.interstate_seconds + s.intrastate_seconds + s.toll_free_seconds +
    s.unknown_seconds

/-- The bucket-sum invariant of a `CustomerStats`: the totals equal the sums
of the four jurisdiction buckets. -/
def bucketSumInv (s : CustomerStats) : Prop :=
  s.total_seconds = sumBucketSeconds s ∧ s.total_calls = sumBucketCalls s

end BillingReports

/-- Claim C1: for every pair of raw phone strings, `classify_call` (in both
`billing_reports.py` and `call_ratio.py`) returns `"toll_free"` whenever
either endpoint is toll-free, with strict precedence over the state lookup;
otherwise it returns `"unknown"` when either endpoint's state is
unresolvable, `"intrastate"` when both states are equal and `"interstate"`
when they differ. -/
theorem c1_classify_call_spec (source dest : String) :
    ((BillingReports.is_toll_free source || BillingReports.is_toll_free dest) = true →
      BillingReports.classify_call source dest = "toll_free")
  ∧ ((BillingReports.is_toll_free source || BillingReports.is_toll_free dest) = false →
      (BillingReports.get_state source = "" ∨ BillingReports.get_state dest = "") →
      BillingReports.classify_call source dest = "unknown")
  ∧ ((BillingReports.is_toll_free source || BillingReports.is_toll_free dest) = false →
      BillingReports.get_state source ≠ "" → BillingReports.get_state dest ≠ "" →
      BillingReports.classify_call source dest =
        if BillingReports.get_state source = BillingReports.get_state dest then
          "intrastate" else "interstate")
  ∧ ((CallRatio.is_toll_free source || CallRatio.is_toll_free dest) = true →
      CallRatio.classify_call source dest = "toll_free")
  ∧ ((CallRatio.is_toll_free source || CallRatio.is_toll_free dest) = false →
      (CallRatio.get_state source = "" ∨ CallRatio.get_state dest = "") →
      CallRatio.classify_call source dest = "unknown")
  ∧ ((CallRatio.is_toll_free source || CallRatio.is_toll_free dest) = false →
      CallRatio.get_state source ≠ "" → CallRatio.get_state dest ≠ "" →
      CallRatio.classify_call source dest =
        if CallRatio.get_state source = CallRatio.get_state dest then
          "intrastate" else "interstate") := by
  refine ⟨fun h => ?_, fun h h2 => ?_, fun h h1 h2 => ?_,
          fun h => ?_, fun h h2 => ?_, fun h h1 h2 => ?_⟩
  · simp [BillingReports.classify_call, h]
  · simp only [BillingReports.classify_call, h, Bool.false_eq_true, if_false]
    rw [if_pos h2]
  · simp only [BillingReports.classify_call, h, Bool.false_eq_true, if_false]
    rw [if_neg (by tauto)]
  · simp [CallRatio.classify_call, h]
  · simp only [CallRatio.classify_call, h, Bool.false_eq_true, if_false]
    rw [if_pos h2]
  · simp only [CallRatio.classify_call, h, Bool.false_eq_true, if_false]
    rw [if_neg (by tauto)]

/-- Witness for C1: a toll-free source with a destination that has no
resolvable state still classifies as `toll_free`. -/
theorem c1_classify_call_spec_witness :
    BillingReports.classify_call "8005551234" "5551234" = "toll_free" :=
  (c1_classify_call_spec "8005551234" "5551234").1 (by decide)

namespace BillingReports

/-- `trackPhones` leaves every numeric accumulator field unchanged. -/
theorem trackPhones_numeric (pm : PhoneMap) (s : CustomerStats)
    (srcN dstN : String) :
    (trackPhones pm s srcN dstN).total_calls = s.total_calls
  ∧ (trackPhones pm s srcN dstN).total_seconds = s.total_seconds
  ∧ (trackPhones pm s srcN dstN).total_cost = s.total_cost
  ∧ sumBucketCalls (trackPhones pm s srcN dstN) = sumBucketCalls s
  ∧ sumBucketSeconds (trackPhones pm s srcN dstN) = sumBucketSeconds s := by
  unfold trackPhones sumBucketCalls sumBucketSeconds
  split_ifs <;> simp

/-- `addJurisdiction` adds exactly one call and the given seconds to the
bucket sums and leaves the running totals unchanged. -/
theorem addJurisdiction_buckets (s : CustomerStats) (ct : String) (sec : ℚ) :
    sumBucketCalls (addJurisdiction s ct sec) = sumBucketCalls s + 1
  ∧ sumBucketSeconds (addJurisdiction s ct sec) = sumBucketSeconds s + sec
  ∧ (addJurisdiction s ct sec).total_calls = s.total_calls
  ∧ (addJurisdiction s ct sec).total_seconds = s.total_seconds
  ∧ (addJurisdiction s ct sec).total_cost = s.total_cost := by
  unfold addJurisdiction sumBucketCalls sumBucketSeconds
  split_ifs <;> refine ⟨?_, ?_, rfl, rfl, rfl⟩ <;> simp <;> ring

/-- One full accumulator update (base totals, optional phone tracking,
jurisdiction bucket) preserves the bucket-sum invariant. -/
theorem bucketSumInv_update (s : CustomerStats) (ct : String) (sec cost : ℚ)
    (pm : PhoneMap) (srcN dstN : String) (h : bucketSumInv s) :
    bucketSumInv
      (addJurisdiction (trackPhones pm (addBase s sec cost) srcN dstN) ct sec) := by
  obtain ⟨h1, h2⟩ := h
  obtain ⟨j1, j2, j3, j4, _⟩ :=
    addJurisdiction_buckets (trackPhones pm (addBase s sec cost) srcN dstN) ct sec
  obtain ⟨t1, t2, _, t4, t5⟩ := trackPhones_numeric pm (addBase s sec cost) srcN dstN
  constructor
  · rw [j4, j2, t2, t5]
    show s.total_seconds + sec = sumBucketSeconds (addBase s sec cost) + sec
    have : sumBucketSeconds (addBase s sec cost) = sumBucketSeconds s := by
      unfold sumBucketSeconds addBase; rfl
    rw [this, h1]
  · rw [j3, j1, t1, t4]
    show s.total_calls + 1 = sumBucketCalls (addBase s sec cost) + 1
    have : sumBucketCalls (addBase s sec cost) = sumBucketCalls s := by
      unfold sumBucketCalls addBase; rfl
    rw [this, h2]

/-- The same, without the phone-tracking block (combined-report steps). -/
theorem bucketSumInv_update_noPhones (s : CustomerStats) (ct : String)
    (sec cost : ℚ) (h : bucketSumInv s) :
    bucketSumInv (addJurisdiction (addBase s sec cost) ct sec) := by
  obtain ⟨h1, h2⟩ := h
  obtain ⟨j1, j2, j3, j4, _⟩ := addJurisdiction_buckets (addBase s sec cost) ct sec
  constructor
  · rw [j4, j2]
    show s.total_seconds + sec = sumBucketSeconds (addBase s sec cost) + sec
    have : sumBucketSeconds (addBase s sec cost) = sumBucketSeconds s := by
      unfold sumBucketSeconds addBase; rfl
    rw [this, h1]
  · rw [j3, j1]
    show s.total_calls + 1 = sumBucketCalls (addBase s sec cost) + 1
    have : sumBucketCalls (addBase s sec cost) = sumBucketCalls s := by
      unfold sumBucketCalls addBase; rfl
    rw [this, h2]

/-- Folding any step that preserves the pointwise bucket-sum invariant keeps
it at every key. -/
theorem bucketSumInv_foldl {β : Type}
    (step : (String → CustomerStats) → β → (String → CustomerStats))
    (hstep : ∀ m b, (∀ k, bucketSumInv (m k)) → ∀ k, bucketSumInv (step m b k)) :
    ∀ (l : List β) (m : String → CustomerStats),
      (∀ k, bucketSumInv (m k)) → ∀ k, bucketSumInv ((l.foldl step m) k) := by
  intro l
  induction l with
  | nil => intro m h k; exact h k
  | cons b t ih => intro m h k; exact ih _ (hstep m b h) k

/-- `stepCdr` preserves the pointwise bucket-sum invariant. -/
theorem bucketSumInv_stepCdr (pm : PhoneMap) (m : String → CustomerStats)
    (row : CdrRow) (h : ∀ k, bucketSumInv (m k)) :
    ∀ k, bucketSumInv (stepCdr pm m row k) := by
  intro k
  simp only [stepCdr, updateAt, ite_apply]
  split_ifs with h1 h2
  · exact h k
  · exact bucketSumInv_update _ _ _ _ _ _ _ (h k)
  · exact h k

/-- `stepCombinedVit` preserves the pointwise bucket-sum invariant. -/
theorem bucketSumInv_stepCombinedVit (pm : PhoneMap)
    (m : String → CustomerStats) (row : CdrRow)
    (h : ∀ k, bucketSumInv (m k)) : ∀ k, bucketSumInv (stepCombinedVit pm m row k) := by
  intro k
  simp only [stepCombinedVit, updateAt, ite_apply]
  split_ifs with h1 h2
  · exact h k
  · exact bucketSumInv_update_noPhones _ _ _ _ (h k)
  · exact h k

/-- `stepCombinedSky` preserves the pointwise bucket-sum invariant. -/
theorem bucketSumInv_stepCombinedSky (pm : PhoneMap)
    (m : String → CustomerStats) (rec : SkyRecord)
    (h : ∀ k, bucketSumInv (m k)) : ∀ k, bucketSumInv (stepCombinedSky pm m rec k) := by
  intro k
  simp only [stepCombinedSky, updateAt]
  split_ifs with h1
  · exact bucketSumInv_update_noPhones _ _ _ _ (h k)
  · exact h k

end BillingReports

/-- Claim C2: every `CustomerStats` produced by the CDR aggregation and by the
combined aggregation satisfies `total_seconds = interstate_seconds +
intrastate_seconds + toll_free_seconds + unknown_seconds` and the analogous
identity for call counts, and every processed record contributes exactly one
call (and its seconds) to the jurisdiction-bucket sums. -/
theorem c2_bucket_sum_invariant :
    (∀ (pm : BillingReports.PhoneMap) (rows : List CdrRow) (k : String),
      BillingReports.bucketSumInv (BillingReports.generate_cdr_report pm rows k))
  ∧ (∀ (pm : BillingReports.PhoneMap) (vitelity : List CdrRow)
      (skyswitch : List BillingReports.SkyRecord) (k : String),
      BillingReports.bucketSumInv
        (BillingReports.generate_combined_cdr_report pm vitelity skyswitch k))
  ∧ (∀ (s : BillingReports.CustomerStats) (ct : String) (sec : ℚ),
      BillingReports.sumBucketCalls (BillingReports.addJurisdiction s ct sec) =
        BillingReports.sumBucketCalls s + 1
      ∧ BillingReports.sumBucketSeconds (BillingReports.addJurisdiction s ct sec) =
        BillingReports.sumBucketSeconds s + sec) := by
  have hempty : ∀ k : String, BillingReports.bucketSumInv
      ((fun _ => BillingReports.emptyStats) k) := by
    intro _
    constructor <;>
      simp [BillingReports.emptyStats, BillingReports.sumBucketSeconds,
        BillingReports.sumBucketCalls]
  refine ⟨?_, ?_, ?_⟩
  · intro pm rows k
    exact BillingReports.bucketSumInv_foldl _
      (BillingReports.bucketSumInv_stepCdr pm) rows _ hempty k
  · intro pm vitelity skyswitch k
    unfold BillingReports.generate_combined_cdr_report
    exact BillingReports.bucketSumInv_foldl _
      (BillingReports.bucketSumInv_stepCombinedSky pm) skyswitch _
      (BillingReports.bucketSumInv_foldl _
        (BillingReports.bucketSumInv_stepCombinedVit pm) vitelity _ hempty) k
  · intro s ct sec
    obtain ⟨h1, h2, _⟩ := BillingReports.addJurisdiction_buckets s ct sec
    exact ⟨h1, h2⟩

namespace BillingReports

/-- Folding a step that ignores exactly the rows a filter removes gives the
same result on the filtered and unfiltered lists. -/
theorem foldl_filter_skip {α β : Type} (f : β → α → β) (p : α → Bool)
    (hf : ∀ b a, p a = false → f b a = b) :
    ∀ (l : List α) (b : β), (l.filter p).foldl f b = l.foldl f b := by
  intro l
  induction l with
  | nil => intro b; rfl
  | cons a t ih =>
    intro b
    by_cases hp : p a = true
    · rw [List.filter_cons_of_pos hp]
      exact ih (f b a)
    · rw [List.filter_cons_of_neg hp, List.foldl_cons,
        hf b a (Bool.not_eq_true _ |>.mp hp)]
      exact ih b

end BillingReports

/-- Counterexample to claim C3 as stated: a CDR row with `Seconds = 0` still
changes the output of `generate_callerid_report`, whose loop has no duration
check — removing the row changes that report's destination count from 1 to
0. -/
theorem c3_counterexample :
    BillingReports.generate_callerid_report
      [CdrRow.mk "" "2025551234" 0 0] "2025551234" = 1
  ∧ BillingReports.generate_callerid_report
      (List.filter (fun row => !decide (row.seconds ≤ 0))
        [CdrRow.mk "" "2025551234" 0 0]) "2025551234" = 0 := by
  constructor <;> rfl

/-- Claim C3 as amended: removing all rows with `Seconds ≤ 0` leaves the CDR
aggregation (`generate_cdr_report`) and the call-ratio computation
(`calculate_call_ratio`) unchanged; the CallerID report, which counts every
row with a non-empty normalized destination regardless of duration, is not
filter-invariant. -/
theorem c3_zero_duration_dropped :
    (∀ (pm : BillingReports.PhoneMap) (rows : List CdrRow),
      BillingReports.generate_cdr_report pm
        (rows.filter (fun row => !decide (row.seconds ≤ 0))) =
      BillingReports.generate_cdr_report pm rows)
  ∧ (∀ rows : List CdrRow,
      CallRatio.calculate_call_ratio
        (rows.filter (fun row => !decide (row.seconds ≤ 0))) =
      CallRatio.calculate_call_ratio rows) := by
  constructor
  · intro pm rows
    unfold BillingReports.generate_cdr_report
    apply BillingReports.foldl_filter_skip
    intro b a hp
    have ha : a.seconds ≤ 0 := by
      simpa using hp
    unfold BillingReports.stepCdr
    rw [if_pos ha]
  · intro rows
    unfold CallRatio.calculate_call_ratio
    rw [BillingReports.foldl_filter_skip]
    intro b a hp
    have ha : a.seconds ≤ 0 := by
      simpa using hp
    unfold CallRatio.stepRatio
    rw [if_pos ha]

/-- Counterexample to claim C4 as stated: an inventory row whose domain starts
with a dot maps its phone to the empty customer name; the phone is then
present in the customer map, yet resolution does not attribute the record to
that mapped customer — Python's `or` chain treats the empty string as falsy
and falls through to `"Unassigned"`. -/
theorem c4_counterexample :
    BillingReports.load_phone_mapping [("2025551234", ".service")]
      (BillingReports.normalize_phone "2025551234") = some ""
  ∧ BillingReports.resolveCustomer
      (BillingReports.load_phone_mapping [("2025551234", ".service")])
      "2025551234" "" = "Unassigned" := by
  constructor <;> decide

/-- Claim C4 as amended: customer resolution uses the mapped customer of the
normalized source when that mapped name is non-empty, otherwise the mapped
customer of the normalized destination when that is non-empty, otherwise the
literal `"Unassigned"`; a mapping entry whose customer name is the empty
string is skipped by the truthiness test exactly as a missing entry is. -/
theorem c4_resolution_precedence (pm : BillingReports.PhoneMap)
    (source dest : String) :
    (∀ c, pm (BillingReports.normalize_phone source) = some c → c ≠ "" →
      BillingReports.resolveCustomer pm source dest = c)
  ∧ ((pm (BillingReports.normalize_phone source) = none ∨
      pm (BillingReports.normalize_phone source) = some "") →
      ∀ c, pm (BillingReports.normalize_phone dest) = some c → c ≠ "" →
        BillingReports.resolveCustomer pm source dest = c)
  ∧ ((pm (BillingReports.normalize_phone source) = none ∨
      pm (BillingReports.normalize_phone source) = some "") →
      (pm (BillingReports.normalize_phone dest) = none ∨
       pm (BillingReports.normalize_phone dest) = some "") →
      BillingReports.resolveCustomer pm source dest = "Unassigned") := by
  refine ⟨fun c hc hne => ?_, fun hs c hc hne => ?_, fun hs hd => ?_⟩
  · unfold BillingReports.resolveCustomer
    rw [hc]
    simp [BillingReports.pyOrStr, hne]
  · unfold BillingReports.resolveCustomer
    rcases hs with hs | hs <;> rw [hs, hc] <;>
      simp [BillingReports.pyOrStr, hne]
  · unfold BillingReports.resolveCustomer
    rcases hs with hs | hs <;> rcases hd with hd | hd <;> rw [hs, hd] <;>
      simp [BillingReports.pyOrStr]

/-- Witness for C4 (amended): a mapped source number resolves to its mapped
customer name. -/
theorem c4_resolution_precedence_witness :
    BillingReports.resolveCustomer
      (BillingReports.load_phone_mapping
        [("2025551234", "AdamsCoIL.20507.service")])
      "(202) 555-1234" "9999" = "AdamsCoIL" :=
  (c4_resolution_precedence
    (BillingReports.load_phone_mapping
      [("2025551234", "AdamsCoIL.20507.service")])
    "(202) 555-1234" "9999").1 "AdamsCoIL" (by decide) (by decide)

/-- Counterexample to claim C5 as stated: a shared-string cell whose raw
value is not an integer literal raises `ValueError` out of the extractor
(nothing catches it), and a cell with the negative index `-1` — out of range
of the list — does not keep its raw value but resolves Python-style from the
end of the shared-string list. -/
theorem c5_counterexample :
    BillingReports.decodeCellValue (some "s") "abc" ["x"] =
      Except.error "ValueError"
  ∧ BillingReports.decodeCellValue (some "s") "-1" ["a", "b"] =
      Except.ok "b" := by
  constructor <;> rfl

/-- Claim C5 as amended: for a cell whose declared type marks it as a
shared-string reference (with non-empty raw value and non-empty shared-string
list), the raw value is parsed as an integer index; a nonnegative index below
the list length resolves to that list entry and a nonnegative index at or
beyond the length keeps the raw value; but a non-integer raw value raises
`ValueError`, a negative index no smaller than `-length` resolves from the
end of the list, and a smaller negative index raises `IndexError` — the
decoding can raise past the extractor boundary.  Cells not marked as
shared-string references (or with empty value or empty list) keep the raw
value. -/
theorem c5_shared_string_decoding (cellType : Option String) (val : String)
    (strings : List String) :
    (¬(cellType = some "s" ∧ val ≠ "" ∧ strings ≠ []) →
      BillingReports.decodeCellValue cellType val strings = Except.ok val)
  ∧ ((cellType = some "s" ∧ val ≠ "" ∧ strings ≠ []) →
      (BillingReports.pythonInt val = none →
        BillingReports.decodeCellValue cellType val strings =
          Except.error "ValueError")
    ∧ (∀ n : Nat, BillingReports.pythonInt val = some (n : Int) →
        BillingReports.decodeCellValue cellType val strings =
          if n < strings.length then Except.ok (strings.getD n "")
          else Except.ok val)
    ∧ (∀ i : Int, BillingReports.pythonInt val = some i → i < 0 →
        BillingReports.decodeCellValue cellType val strings =
          if 0 ≤ i + strings.length then
            Except.ok (strings.getD (i + strings.length).toNat "")
          else Except.error "IndexError")) := by
  constructor
  · intro h
    unfold BillingReports.decodeCellValue
    rw [if_neg h]
  · intro h
    refine ⟨fun hnone => ?_, fun n hn => ?_, fun i hi hneg => ?_⟩
    · unfold BillingReports.decodeCellValue
      rw [if_pos h, hnone]
    · unfold BillingReports.decodeCellValue
      rw [if_pos h, hn]
      dsimp only
      by_cases hlt : n < strings.length
      · have hlt2 : ((n : Int)) < (strings.length : Int) := by
          exact_mod_cast hlt
        rw [if_pos hlt2, if_pos hlt]
        unfold BillingReports.pyIndex
        rw [if_pos (by positivity)]
        have hcast : ((n : Int)).toNat = n := Int.toNat_natCast n
        rw [hcast, List.get?_eq_get hlt]
        dsimp only
        simp [List.getD_eq_getElem?_getD, List.getElem?_eq_getElem hlt]
      · have hlt2 : ¬ ((n : Int)) < (strings.length : Int) := by
          exact_mod_cast hlt
        rw [if_neg hlt2, if_neg hlt]
    · unfold BillingReports.decodeCellValue
      rw [if_pos h, hi]
      dsimp only
      have hlt2 : i < (strings.length : Int) := by
        have : (0 : Int) ≤ strings.length := Int.natCast_nonneg _
        omega
      rw [if_pos hlt2]
      unfold BillingReports.pyIndex
      rw [if_neg (by omega)]
      by_cases hge : 0 ≤ i + (strings.length : Int)
      · rw [if_pos hge, if_pos hge]
        have hlen : (i + (strings.length : Int)).toNat < strings.length := by
          omega
        rw [List.get?_eq_get hlen]
        dsimp only
        simp [List.getD_eq_getElem?_getD, List.getElem?_eq_getElem hlen]
      · rw [if_neg hge, if_neg hge]

/-- Witness for C5 (amended): a shared-string cell with index `1` into a
two-element shared-string list resolves to the second entry. -/
theorem c5_shared_string_decoding_witness :
    BillingReports.decodeCellValue (some "s") "1" ["a", "b"] =
      Except.ok "b" := by
  have h := ((c5_shared_string_decoding (some "s") "1" ["a", "b"]).2
    (by decide)).2.1 1 (by decide)
  simpa using h

namespace BillingReports

/-- The jurisdiction-bucket update never touches `total_cost`. -/
theorem addJurisdiction_total_cost (s : CustomerStats) (ct : String)
    (sec : ℚ) : (addJurisdiction s ct sec).total_cost = s.total_cost := by
  unfold addJurisdiction
  split_ifs <;> rfl

end BillingReports

/-- Claim C6: processing one SkySwitch record in the combined aggregation adds
exactly `(seconds / 60) * VOICE_RATE_PER_MINUTE` to the attributed customer's
`total_cost`; the record type carries no cost field from the source system,
so no such field can be used. -/
theorem c6_skyswitch_cost_recomputed (pm : BillingReports.PhoneMap)
    (m : String → BillingReports.CustomerStats)
    (rec : BillingReports.SkyRecord) :
    (BillingReports.stepCombinedSky pm m rec
        (BillingReports.skyCustomer pm rec)).total_cost =
      (m (BillingReports.skyCustomer pm rec)).total_cost +
        rec.seconds / 60 * BillingReports.VOICE_RATE_PER_MINUTE := by
  unfold BillingReports.stepCombinedSky BillingReports.updateAt
  rw [if_pos rfl, BillingReports.addJurisdiction_total_cost]
  rfl

/-- Claim C7: in the combined aggregation, a SkySwitch record whose extracted
customer name is non-empty and not `"Unknown"` is attributed to that name
as-is; an empty or `"Unknown"` name falls back to phone-based resolution
(mapped source, then mapped destination, then `"Unassigned"`). -/
theorem c7_skyswitch_attribution (pm : BillingReports.PhoneMap)
    (rec : BillingReports.SkyRecord) :
    (rec.customer ≠ "" → rec.customer ≠ "Unknown" →
      BillingReports.skyCustomer pm rec = rec.customer)
  ∧ (rec.customer = "" ∨ rec.customer = "Unknown" →
      BillingReports.skyCustomer pm rec =
        BillingReports.resolveCustomer pm rec.source rec.dest) := by
  constructor
  · intro h1 h2
    unfold BillingReports.skyCustomer
    rw [if_neg (by tauto)]
  · intro h
    unfold BillingReports.skyCustomer
    rw [if_pos h]

/-- Witness for C7: a record already carrying the customer name `"AdamsCoIL"`
keeps it. -/
theorem c7_skyswitch_attribution_witness :
    BillingReports.skyCustomer (fun _ => none)
      (BillingReports.SkyRecord.mk "111" "222" 5 "AdamsCoIL") = "AdamsCoIL" :=
  (c7_skyswitch_attribution (fun _ => none)
    (BillingReports.SkyRecord.mk "111" "222" 5 "AdamsCoIL")).1
    (by decide) (by decide)

namespace BillingReports

/-- Field-wise accumulator merge is associative. -/
theorem addStats_assoc (a b c : CustomerStats) :
    addStats (addStats a b) c = addStats a (addStats b c) := by
  cases a; cases b; cases c
  simp [addStats, add_assoc, Finset.union_assoc]

/-- Field-wise accumulator merge is commutative. -/
theorem addStats_comm (a b : CustomerStats) :
    addStats a b = addStats b a := by
  cases a; cases b
  simp [addStats, add_comm, Finset.union_comm]

/-- The default-constructed accumulator is a right identity for the merge. -/
theorem addStats_empty_right (s : CustomerStats) :
    addStats s emptyStats = s := by
  cases s
  simp [addStats, emptyStats]

/-- `addBase` commutes with merging a fixed accumulator on the left. -/
theorem addBase_linear (x y : CustomerStats) (sec cost : ℚ) :
    addBase (addStats x y) sec cost = addStats x (addBase y sec cost) := by
  cases x; cases y
  simp [addStats, addBase, add_assoc]

/-- `addJurisdiction` commutes with merging a fixed accumulator on the
left. -/
theorem addJurisdiction_linear (x y : CustomerStats) (ct : String) (sec : ℚ) :
    addJurisdiction (addStats x y) ct sec =
      addStats x (addJurisdiction y ct sec) := by
  unfold addJurisdiction
  split_ifs <;> (cases x; cases y; simp [addStats, add_assoc])

/-- The Vitelity step of the combined pass commutes with merging a fixed
accumulator map on the left. -/
theorem stepCombinedVit_merge (pm : PhoneMap) (a b : String → CustomerStats)
    (row : CdrRow) :
    stepCombinedVit pm (mergeMaps a b) row =
      mergeMaps a (stepCombinedVit pm b row) := by
  unfold stepCombinedVit
  by_cases hs : row.seconds ≤ 0
  · rw [if_pos hs, if_pos hs]
  · rw [if_neg hs, if_neg hs]
    funext k
    unfold mergeMaps updateAt
    by_cases hk : k = resolveCustomer pm row.source row.dest
    · rw [if_pos hk, if_pos hk]
      dsimp only
      rw [addBase_linear, addJurisdiction_linear]
    · rw [if_neg hk, if_neg hk]

/-- The SkySwitch step of the combined pass commutes with merging a fixed
accumulator map on the left. -/
theorem stepCombinedSky_merge (pm : PhoneMap) (a b : String → CustomerStats)
    (rec : SkyRecord) :
    stepCombinedSky pm (mergeMaps a b) rec =
      mergeMaps a (stepCombinedSky pm b rec) := by
  unfold stepCombinedSky
  funext k
  unfold mergeMaps updateAt
  by_cases hk : k = skyCustomer pm rec
  · rw [if_pos hk, if_pos hk]
    dsimp only
    rw [addBase_linear, addJurisdiction_linear]
  · rw [if_neg hk, if_neg hk]

/-- Folding any step that commutes with a left merge commutes with it over a
whole list. -/
theorem foldl_merge {β : Type}
    (step : (String → CustomerStats) → β → (String → CustomerStats))
    (hstep : ∀ a b x, step (mergeMaps a b) x = mergeMaps a (step b x)) :
    ∀ (l : List β) (a b : String → CustomerStats),
      l.foldl step (mergeMaps a b) = mergeMaps a (l.foldl step b) := by
  intro l
  induction l with
  | nil => intro a b; rfl
  | cons x t ih =>
    intro a b
    rw [List.foldl_cons, hstep, ih, List.foldl_cons]

/-- The empty accumulator map is a right identity for the map merge. -/
theorem mergeMaps_empty_right (a : String → CustomerStats) :
    mergeMaps a (fun _ => emptyStats) = a :=
  funext fun k => addStats_empty_right (a k)

end BillingReports

/-- Claim C8: the combined pass over the two record streams equals the merge
(by customer key, summing accumulator fields) of the two independently
aggregated streams, and the accumulator merge is associative and
commutative. -/
theorem c8_combined_equals_independent_merge :
    (∀ (pm : BillingReports.PhoneMap) (vitelity : List CdrRow)
      (skyswitch : List BillingReports.SkyRecord),
      BillingReports.generate_combined_cdr_report pm vitelity skyswitch =
        BillingReports.mergeMaps (BillingReports.aggVitelityAlone pm vitelity)
          (BillingReports.aggSkyAlone pm skyswitch))
  ∧ (∀ a b c : BillingReports.CustomerStats,
      BillingReports.addStats (BillingReports.addStats a b) c =
        BillingReports.addStats a (BillingReports.addStats b c))
  ∧ (∀ a b : BillingReports.CustomerStats,
      BillingReports.addStats a b = BillingReports.addStats b a) := by
  refine ⟨?_, BillingReports.addStats_assoc, BillingReports.addStats_comm⟩
  intro pm vitelity skyswitch
  unfold BillingReports.generate_combined_cdr_report
    BillingReports.aggVitelityAlone BillingReports.aggSkyAlone
  calc skyswitch.foldl (BillingReports.stepCombinedSky pm)
        (vitelity.foldl (BillingReports.stepCombinedVit pm)
          (fun _ => BillingReports.emptyStats))
      = skyswitch.foldl (BillingReports.stepCombinedSky pm)
          (BillingReports.mergeMaps
            (vitelity.foldl (BillingReports.stepCombinedVit pm)
              (fun _ => BillingReports.emptyStats))
            (fun _ => BillingReports.emptyStats)) := by
        rw [BillingReports.mergeMaps_empty_right]
    _ = BillingReports.mergeMaps
          (vitelity.foldl (BillingReports.stepCombinedVit pm)
            (fun _ => BillingReports.emptyStats))
          (skyswitch.foldl (BillingReports.stepCombinedSky pm)
            (fun _ => BillingReports.emptyStats)) :=
        BillingReports.foldl_merge _ (BillingReports.stepCombinedSky_merge pm)
          skyswitch _ _

namespace BillingReports

/-- `normalizePhoneL` returns only digit characters: filtering its result
again changes nothing. -/
theorem normalizePhoneL_digits (l : List Char) :
    (normalizePhoneL l).filter Char.isDigit = normalizePhoneL l := by
  simp only [normalizePhoneL]
  split_ifs with h1 h2 <;>
    (apply List.filter_eq_self.mpr
     intro a ha)
  · exact (List.mem_filter.mp (List.drop_subset _ _ ha)).2
  · exact (List.mem_filter.mp (List.take_subset _ _ ha)).2
  · exact (List.mem_filter.mp ha).2

/-- On an input whose digit string is valid (10 digits, or 11 digits starting
with `1`), `normalizePhoneL` returns exactly 10 characters. -/
theorem normalizePhoneL_length_valid (l : List Char)
    (h : (l.filter Char.isDigit).length = 10 ∨
      ((l.filter Char.isDigit).length = 11 ∧
        (l.filter Char.isDigit).head? = some '1')) :
    (normalizePhoneL l).length = 10 := by
  simp only [normalizePhoneL]
  rcases h with h10 | h11
  · rw [if_neg (by simp [h10]), if_pos (by omega)]
    rw [List.length_take]
    omega
  · rw [if_pos h11, List.length_drop]
    omega

/-- `normalizePhoneL` is the identity on a 10-character all-digit list. -/
theorem normalizePhoneL_fixed (m : List Char)
    (hd : m.filter Char.isDigit = m) (hlen : m.length = 10) :
    normalizePhoneL m = m := by
  simp only [normalizePhoneL]
  rw [hd, if_neg (by simp [hlen]), if_pos (by omega)]
  exact List.take_of_length_le (by omega)

end BillingReports

/-- Claim C9: on every input string whose digit content is a valid 10-digit
number or an 11-digit number with leading `1`, `normalize_phone` is
idempotent. -/
theorem c9_normalize_phone_idempotent (x : String)
    (h : (x.data.filter Char.isDigit).length = 10 ∨
      ((x.data.filter Char.isDigit).length = 11 ∧
        (x.data.filter Char.isDigit).head? = some '1')) :
    BillingReports.normalize_phone (BillingReports.normalize_phone x) =
      BillingReports.normalize_phone x := by
  unfold BillingReports.normalize_phone
  congr 1
  show BillingReports.normalizePhoneL
      ((BillingReports.normalizePhoneL x.data).asString.data) =
    BillingReports.normalizePhoneL x.data
  have hdata : (BillingReports.normalizePhoneL x.data).asString.data =
      BillingReports.normalizePhoneL x.data := rfl
  rw [hdata]
  exact BillingReports.normalizePhoneL_fixed _
    (BillingReports.normalizePhoneL_digits x.data)
    (BillingReports.normalizePhoneL_length_valid x.data h)

/-- Witness for C9: an 11-digit input with punctuation and a leading `1` is
normalized idempotently. -/
theorem c9_normalize_phone_idempotent_witness :
    ((" 1-202-555-1234".data.filter Char.isDigit).length = 11 ∧
      (" 1-202-555-1234".data.filter Char.isDigit).head? = some '1')
  ∧ BillingReports.normalize_phone
      (BillingReports.normalize_phone " 1-202-555-1234") =
      BillingReports.normalize_phone " 1-202-555-1234" :=
  ⟨by decide, c9_normalize_phone_idempotent " 1-202-555-1234"
    (Or.inr (by decide))⟩

/-- The two area-code extractors agree on every character list. -/
theorem areaCodeL_eq (l : List Char) :
    BillingReports.areaCodeL l = CallRatio.areaCodeL l := by
  simp only [BillingReports.areaCodeL, BillingReports.normalizePhoneL,
    CallRatio.areaCodeL]
  by_cases h11 : (l.filter Char.isDigit).length = 11 ∧
      (l.filter Char.isDigit).head? = some '1'
  · rw [if_pos h11, if_pos h11]
    rw [if_pos (by rw [List.length_drop]; omega)]
  · rw [if_neg h11, if_neg h11]
    by_cases h10 : 10 ≤ (l.filter Char.isDigit).length
    · rw [if_pos h10]
      rw [if_pos (by rw [List.length_take]; omega), List.take_take]
      norm_num
      split_ifs <;> first | rfl | omega
    · rw [if_neg h10, if_neg (by omega :
        ¬ (l.filter Char.isDigit).length = 10)]

/-- The two `get_area_code` functions agree on every string. -/
theorem get_area_code_eq (phone : String) :
    BillingReports.get_area_code phone = CallRatio.get_area_code phone :=
  congrArg List.asString (areaCodeL_eq phone.data)

/-- The two `get_state` functions agree on every string. -/
theorem get_state_eq (phone : String) :
    BillingReports.get_state phone = CallRatio.get_state phone := by
  unfold BillingReports.get_state CallRatio.get_state
  rw [get_area_code_eq]
  rfl

/-- The two `is_toll_free` functions agree on every string. -/
theorem is_toll_free_eq (phone : String) :
    BillingReports.is_toll_free phone = CallRatio.is_toll_free phone := by
  unfold BillingReports.is_toll_free CallRatio.is_toll_free
  rw [get_area_code_eq]
  rfl

/-- The two `classify_call` functions agree on every pair of strings. -/
theorem classify_call_eq (source dest : String) :
    BillingReports.classify_call source dest =
      CallRatio.classify_call source dest := by
  simp only [BillingReports.classify_call, CallRatio.classify_call]
  rw [is_toll_free_eq source, is_toll_free_eq dest, get_state_eq source,
    get_state_eq dest]

/-- Claim C10: the duplicated jurisdiction classifiers of
`billing_reports.py` and `call_ratio.py` agree everywhere — same area code
for every raw input string and same classification for every pair. -/
theorem c10_duplicate_classifiers_agree :
    (∀ phone : String,
      BillingReports.get_area_code phone = CallRatio.get_area_code phone)
  ∧ (∀ source dest : String,
      BillingReports.classify_call source dest =
        CallRatio.classify_call source dest) :=
  ⟨get_area_code_eq, classify_call_eq⟩
